import Mathlib

/-!
Shallow embedding of the lane-runner game core in `src/App.tsx`.

Numbers: JavaScript floating-point values are modelled as rationals (`ℚ`);
integer-valued quantities (score, lane index, item id) as `ℤ`/`ℕ`.
Randomness (`Math.random`) is externalised: the chosen lane and the coin
roll are explicit parameters of `trySpawnItem` and `tick`.
React state setters mirror the mutable refs, so the state is modelled as a
single record holding the refs' contents.
-/

namespace LaneDrift

/-- `type ItemType = 'obstacle' | 'coin'` -/
inductive ItemType where
  | obstacle
  | coin
deriving DecidableEq, Repr

/-- `type Item = { id, type, lane, y }` -/
structure Item where
  id : ℕ
  type : ItemType
  lane : ℤ
  y : ℚ
deriving DecidableEq, Repr

def LANES : ℤ := 3
def BASE_SPEED : ℚ := 360
def SPEED_RAMP : ℚ := 10
def SPAWN_MIN : ℚ := 360
def SPAWN_MAX : ℚ := 900
/-- `COIN_CHANCE = 0.25`; the coin roll `Math.random() < COIN_CHANCE` is
externalised as the Boolean parameter `isCoin`. -/
def COIN_CHANCE : ℚ := 1/4
def CAR_WIDTH : ℚ := 34
def CAR_HEIGHT : ℚ := 52
def ITEM_WIDTH : ℚ := 30
def ITEM_HEIGHT : ℚ := 44

/-- `const clamp = (value, min, max) => Math.max(min, Math.min(max, value))`
(used only on integer lane indices). -/
def clamp (value lo hi : ℤ) : ℤ :=
  max lo (min hi value)

/-- `useState<'ready' | 'running' | 'gameover'>` -/
inductive GamePhase where
  | ready
  | running
  | gameover
deriving DecidableEq, Repr

/-- The component's game state: the mutable refs (and their mirrored React
state). `height` and the derived `carY` stay outside (layout environment). -/
structure GameState where
  gameState : GamePhase
  laneIndex : ℤ
  items : List Item
  score : ℤ
  highScore : ℤ
  speed : ℚ
  elapsed : ℚ
  lastSpawn : ℚ
  lastTime : ℚ
  nextId : ℕ
deriving DecidableEq, Repr

/-- `moveLeft`: `updateLane((current) => clamp(current - 1, 0, LANES - 1))`.
Note: the source does not gate lane moves on the game phase. -/
def moveLeft (s : GameState) : GameState :=
  { s with laneIndex := clamp (s.laneIndex - 1) 0 (LANES - 1) }

/-- `moveRight`: `updateLane((current) => clamp(current + 1, 0, LANES - 1))`. -/
def moveRight (s : GameState) : GameState :=
  { s with laneIndex := clamp (s.laneIndex + 1) 0 (LANES - 1) }

/-- `startGame` (src/App.tsx lines 79-92): full run reset; `highScore` and
`nextIdRef` are not touched. -/
def startGame (s : GameState) : GameState :=
  { s with
    gameState := GamePhase.running
    laneIndex := 1
    items := []
    score := 0
    speed := BASE_SPEED
    elapsed := 0
    lastSpawn := 0
    lastTime := 0 }

/-- `endGame` (src/App.tsx lines 94-97). -/
def endGame (s : GameState) : GameState :=
  { s with
    gameState := GamePhase.gameover
    highScore := max s.highScore s.score }

/-- The spawn interval `Math.max(SPAWN_MIN, SPAWN_MAX - Math.floor(elapsed * 10))`
(src/App.tsx lines 102-105). -/
def spawnInterval (elapsed : ℚ) : ℚ :=
  max SPAWN_MIN (SPAWN_MAX - ((⌊elapsed * 10⌋ : ℤ) : ℚ))

/-- `itemsRef.current.filter((item) => item.lane === lane).sort((a, b) => a.y - b.y)[0]`:
the smallest `y` among items in `lane` (src/App.tsx lines 110-112). -/
def minLaneY (items : List Item) (lane : ℤ) : Option ℚ :=
  ((items.filter (fun item => decide (item.lane = lane))).map Item.y).min?

/-- `trySpawnItem` (src/App.tsx lines 99-128), with the two random draws
(`lane`, `isCoin`) passed in explicitly. -/
def trySpawnItem (lane : ℤ) (isCoin : Bool) (timeMs : ℚ) (s : GameState) : GameState :=
  if timeMs - s.lastSpawn < spawnInterval s.elapsed then s
  else if (minLaneY s.items lane).any (fun y => decide (y < ITEM_HEIGHT * 1.6)) then s
  else
    { s with
      lastSpawn := timeMs
      items := s.items ++
        [{ id := s.nextId
           type := if isCoin then ItemType.coin else ItemType.obstacle
           lane := lane
           y := -ITEM_HEIGHT }]
      nextId := s.nextId + 1 }

/-- Lines 135-139 of `tick`: `if (!lastTimeRef.current) lastTimeRef.current = timeMs;`
then `delta = (timeMs - lastTimeRef.current) / 1000`. -/
def tickDelta (timeMs : ℚ) (s : GameState) : ℚ :=
  (timeMs - (if s.lastTime = 0 then timeMs else s.lastTime)) / 1000

/-- The per-item loop of `tick` (src/App.tsx lines 153-173), processed in list
order; returns `(hitObstacle, scoreDelta, updatedItems)`. -/
def stepItems (height carTop carBottom : ℚ) (playerLane : ℤ) (distance : ℚ) :
    List Item → Bool × ℤ × List Item
  | [] => (false, 0, [])
  | item :: rest =>
    let r := stepItems height carTop carBottom playerLane distance rest
    let nextY := item.y + distance
    if nextY > height + ITEM_HEIGHT then r
    else if item.lane = playerLane ∧ nextY + ITEM_HEIGHT > carTop ∧ nextY < carBottom then
      match item.type with
      | ItemType.obstacle => (true, r.2.1, r.2.2)
      | ItemType.coin => (r.1, r.2.1 + 120, r.2.2)
    else (r.1, r.2.1, { item with y := nextY } :: r.2.2)

/-- `const nextSpeed = speedRef.current + SPEED_RAMP * delta` (line 142). -/
def tickSpeed (timeMs : ℚ) (s : GameState) : ℚ :=
  s.speed + SPEED_RAMP * tickDelta timeMs s

/-- `const distance = nextSpeed * delta` (line 145). -/
def tickDistance (timeMs : ℚ) (s : GameState) : ℚ :=
  tickSpeed timeMs s * tickDelta timeMs s

/-- `const carTop = carY - CAR_HEIGHT / 2` with `carY = height - 140`
(lines 42 and 147). -/
def carTopOf (height : ℚ) : ℚ :=
  height - 140 - CAR_HEIGHT / 2

/-- `const carBottom = carY + CAR_HEIGHT / 2` (line 148). -/
def carBottomOf (height : ℚ) : ℚ :=
  height - 140 + CAR_HEIGHT / 2

/-- The movement/collision/scoring part of `tick` (src/App.tsx lines 135-182),
up to but not including the `trySpawnItem` call; returns the updated state and
the `hitObstacle` flag. -/
def advanceStep (height timeMs : ℚ) (s : GameState) : GameState × Bool :=
  let r := stepItems height (carTopOf height) (carBottomOf height)
    s.laneIndex (tickDistance timeMs s) s.items
  ({ s with
      lastTime := timeMs
      elapsed := s.elapsed + tickDelta timeMs s
      speed := tickSpeed timeMs s
      items := r.2.2
      score := s.score + r.2.1 + ⌊tickDelta timeMs s * 30⌋ }, r.1)

/-- `tick` (src/App.tsx lines 130-193): early-return unless running; advance,
resolve, score; then `trySpawnItem(timeMs)`; then `if (hitObstacle) endGame()`.
Frame scheduling (`requestAnimationFrame`) is outside the model. -/
def tick (height : ℚ) (lane : ℤ) (isCoin : Bool) (timeMs : ℚ) (s : GameState) : GameState :=
  if s.gameState ≠ GamePhase.running then s
  else
    let a := advanceStep height timeMs s
    let s2 := trySpawnItem lane isCoin timeMs a.1
    if a.2 then endGame s2 else s2

/-- A sequence of simulation steps: each input is `(timeMs, lane, isCoin)`. -/
def runTicks (height : ℚ) (inputs : List (ℚ × ℤ × Bool)) (s : GameState) : GameState :=
  match inputs with
  | [] => s
  | (t, l, c) :: rest => runTicks height rest (tick height l c t s)

/-- The item is discarded as off-screen this step (line 155). -/
def offscreenAfter (height distance : ℚ) (item : Item) : Prop :=
  item.y + distance > height + ITEM_HEIGHT

/-- The item's post-advance vertical span intersects the player's box
(line 161). -/
def overlapsCar (carTop carBottom distance : ℚ) (item : Item) : Prop :=
  item.y + distance + ITEM_HEIGHT > carTop ∧ item.y + distance < carBottom

/-- The item is resolved against the player this step: on-screen, same lane,
overlapping (lines 153-170). -/
def itemHits (height carTop carBottom : ℚ) (playerLane : ℤ) (distance : ℚ)
    (item : Item) : Prop :=
  ¬ offscreenAfter height distance item ∧ item.lane = playerLane ∧
    overlapsCar carTop carBottom distance item

instance (height distance : ℚ) (item : Item) :
    Decidable (offscreenAfter height distance item) :=
  inferInstanceAs (Decidable (_ > _))

instance (carTop carBottom distance : ℚ) (item : Item) :
    Decidable (overlapsCar carTop carBottom distance item) :=
  inferInstanceAs (Decidable (_ ∧ _))

instance (height carTop carBottom : ℚ) (playerLane : ℤ) (distance : ℚ) (item : Item) :
    Decidable (itemHits height carTop carBottom playerLane distance item) :=
  inferInstanceAs (Decidable (_ ∧ _))

/-- Number of coins collected by the per-item loop this step. -/
def coinsHit (height carTop carBottom : ℚ) (playerLane : ℤ) (distance : ℚ)
    (items : List Item) : ℕ :=
  items.countP (fun item =>
    decide (itemHits height carTop carBottom playerLane distance item ∧
      item.type = ItemType.coin))

/-! ### Concrete states used to witness and refute claims -/

/-- A fresh Ready-phase state with the player in the center lane. -/
def readyCenter : GameState :=
  { gameState := GamePhase.ready, laneIndex := 1, items := [], score := 0,
    highScore := 0, speed := BASE_SPEED, elapsed := 0, lastSpawn := 0,
    lastTime := 0, nextId := 1 }

/-- A Running-phase state with the player in the center lane. -/
def runningCenter : GameState :=
  { gameState := GamePhase.running, laneIndex := 1, items := [], score := 0,
    highScore := 0, speed := BASE_SPEED, elapsed := 0, lastSpawn := 0,
    lastTime := 0, nextId := 1 }

/-- Running state with an obstacle about to be resolved against the player and
a spawn gate that is open (last successful spawn long ago). -/
def collideSpawnState : GameState :=
  { gameState := GamePhase.running, laneIndex := 1,
    items := [{ id := 1, type := ItemType.obstacle, lane := 1, y := 600 }],
    score := 0, highScore := 0, speed := 360, elapsed := 0,
    lastSpawn := 0, lastTime := 1000, nextId := 5 }

/-- Running state whose lane 0 holds an item at `y = 50`: more than
`1.6 × itemHeight` away from the spawn point, yet inside the code's
rejection band `y < 1.6 × itemHeight`. -/
def nearTopState : GameState :=
  { gameState := GamePhase.running, laneIndex := 1,
    items := [{ id := 1, type := ItemType.obstacle, lane := 0, y := 50 }],
    score := 0, highScore := 0, speed := 360, elapsed := 0,
    lastSpawn := 0, lastTime := 0, nextId := 2 }

/-- Running state whose lane 0 holds an item at `y = 100`, clear of the
rejection band, with the spawn gate open. -/
def clearLaneState : GameState :=
  { gameState := GamePhase.running, laneIndex := 1,
    items := [{ id := 1, type := ItemType.obstacle, lane := 0, y := 100 }],
    score := 0, highScore := 0, speed := 360, elapsed := 0,
    lastSpawn := 0, lastTime := 0, nextId := 2 }

/-- Running state with an obstacle that will overlap the player after this
step's advance (spawn gate closed to keep the item set small). -/
def obstacleHitState : GameState :=
  { gameState := GamePhase.running, laneIndex := 1,
    items := [{ id := 1, type := ItemType.obstacle, lane := 1, y := 600 }],
    score := 0, highScore := 0, speed := 360, elapsed := 0,
    lastSpawn := 1050, lastTime := 1000, nextId := 2 }

/-- Running state with a coin that will overlap the player after this step's
advance. -/
def coinHitState : GameState :=
  { gameState := GamePhase.running, laneIndex := 1,
    items := [{ id := 1, type := ItemType.coin, lane := 1, y := 600 }],
    score := 0, highScore := 0, speed := 360, elapsed := 0,
    lastSpawn := 1050, lastTime := 1000, nextId := 2 }

/-- Running state with a coin overlapping after the advance, reached with a
small (`delta = 0.02 s`) frame. -/
def smallDeltaState : GameState :=
  { gameState := GamePhase.running, laneIndex := 1,
    items := [{ id := 1, type := ItemType.coin, lane := 1, y := 630 }],
    score := 0, highScore := 0, speed := 360, elapsed := 0,
    lastSpawn := 1100, lastTime := 1000, nextId := 2 }

/-- Running state with an obstacle far enough above the player that a large
frame delta will carry it entirely past the player in one step. -/
def tunnelState : GameState :=
  { gameState := GamePhase.running, laneIndex := 1,
    items := [{ id := 1, type := ItemType.obstacle, lane := 1, y := 520 }],
    score := 0, highScore := 0, speed := 360, elapsed := 0,
    lastSpawn := 1400, lastTime := 1000, nextId := 2 }

/-! ### Helper lemmas about the spawn scheduler -/

theorem trySpawnItem_cases (lane : ℤ) (isCoin : Bool) (timeMs : ℚ) (s : GameState) :
    trySpawnItem lane isCoin timeMs s = s ∨
      trySpawnItem lane isCoin timeMs s =
        { s with
          lastSpawn := timeMs
          items := s.items ++
            [{ id := s.nextId
               type := if isCoin then ItemType.coin else ItemType.obstacle
               lane := lane
               y := -ITEM_HEIGHT }]
          nextId := s.nextId + 1 } := by
  rw [trySpawnItem]
  split
  · exact Or.inl rfl
  · split
    · exact Or.inl rfl
    · exact Or.inr rfl

theorem trySpawnItem_score (lane : ℤ) (isCoin : Bool) (timeMs : ℚ) (s : GameState) :
    (trySpawnItem lane isCoin timeMs s).score = s.score := by
  rcases trySpawnItem_cases lane isCoin timeMs s with h | h <;> rw [h]

theorem trySpawnItem_speed (lane : ℤ) (isCoin : Bool) (timeMs : ℚ) (s : GameState) :
    (trySpawnItem lane isCoin timeMs s).speed = s.speed := by
  rcases trySpawnItem_cases lane isCoin timeMs s with h | h <;> rw [h]

theorem trySpawnItem_gameState (lane : ℤ) (isCoin : Bool) (timeMs : ℚ) (s : GameState) :
    (trySpawnItem lane isCoin timeMs s).gameState = s.gameState := by
  rcases trySpawnItem_cases lane isCoin timeMs s with h | h <;> rw [h]

theorem trySpawnItem_highScore (lane : ℤ) (isCoin : Bool) (timeMs : ℚ) (s : GameState) :
    (trySpawnItem lane isCoin timeMs s).highScore = s.highScore := by
  rcases trySpawnItem_cases lane isCoin timeMs s with h | h <;> rw [h]

theorem trySpawnItem_lastTime (lane : ℤ) (isCoin : Bool) (timeMs : ℚ) (s : GameState) :
    (trySpawnItem lane isCoin timeMs s).lastTime = s.lastTime := by
  rcases trySpawnItem_cases lane isCoin timeMs s with h | h <;> rw [h]

theorem trySpawnItem_laneIndex (lane : ℤ) (isCoin : Bool) (timeMs : ℚ) (s : GameState) :
    (trySpawnItem lane isCoin timeMs s).laneIndex = s.laneIndex := by
  rcases trySpawnItem_cases lane isCoin timeMs s with h | h <;> rw [h]

theorem trySpawnItem_items_sub (lane : ℤ) (isCoin : Bool) (timeMs : ℚ) (s : GameState) :
    ∀ j ∈ (trySpawnItem lane isCoin timeMs s).items, j ∈ s.items ∨ j.id = s.nextId := by
  rcases trySpawnItem_cases lane isCoin timeMs s with h | h <;> rw [h]
  · exact fun j hj => Or.inl hj
  · intro j hj
    rcases List.mem_append.mp hj with hj | hj
    · exact Or.inl hj
    · rcases List.mem_singleton.mp hj with rfl
      exact Or.inr rfl

/-- `SPAWN_MIN` is a lower bound for the spawn interval. -/
theorem spawnInterval_pos (elapsed : ℚ) : 0 < spawnInterval elapsed := by
  have h : SPAWN_MIN ≤ spawnInterval elapsed := le_max_left _ _
  have h0 : (0 : ℚ) < SPAWN_MIN := by norm_num [SPAWN_MIN]
  linarith

/-! ### Helper lemmas about the per-item loop -/

/-- The collision flag is raised exactly when some item is resolved against the
player as an obstacle. -/
theorem stepItems_fst_iff (height carTop carBottom : ℚ) (pl : ℤ) (d : ℚ)
    (items : List Item) :
    (stepItems height carTop carBottom pl d items).1 = true ↔
      ∃ i ∈ items, itemHits height carTop carBottom pl d i ∧
        i.type = ItemType.obstacle := by
  induction items with
  | nil => simp [stepItems]
  | cons item rest ih =>
    simp only [stepItems]
    split_ifs with hoff hhit
    · rw [ih]
      constructor
      · rintro ⟨i, hi, hh⟩
        exact ⟨i, List.mem_cons_of_mem _ hi, hh⟩
      · rintro ⟨i, hi, hh⟩
        rcases List.mem_cons.mp hi with rfl | hi
        · exact absurd hoff hh.1.1
        · exact ⟨i, hi, hh⟩
    · cases htype : item.type with
      | obstacle =>
        simp only [htype]
        constructor
        · intro _
          exact ⟨item, List.mem_cons_self _ _, ⟨hoff, hhit.1, hhit.2⟩, htype⟩
        · intro _
          trivial
      | coin =>
        simp only [htype]
        rw [ih]
        constructor
        · rintro ⟨i, hi, hh⟩
          exact ⟨i, List.mem_cons_of_mem _ hi, hh⟩
        · rintro ⟨i, hi, hh⟩
          rcases List.mem_cons.mp hi with rfl | hi
          · rw [htype] at hh
            simp at hh
          · exact ⟨i, hi, hh⟩
    · rw [ih]
      constructor
      · rintro ⟨i, hi, hh⟩
        exact ⟨i, List.mem_cons_of_mem _ hi, hh⟩
      · rintro ⟨i, hi, hh⟩
        rcases List.mem_cons.mp hi with rfl | hi
        · exact absurd ⟨hh.1.2.1, hh.1.2.2⟩ hhit
        · exact ⟨i, hi, hh⟩

/-- Unfolding `coinsHit` over a cons cell. -/
theorem coinsHit_cons (height carTop carBottom : ℚ) (pl : ℤ) (d : ℚ) (item : Item)
    (rest : List Item) :
    coinsHit height carTop carBottom pl d (item :: rest) =
      coinsHit height carTop carBottom pl d rest +
        (if itemHits height carTop carBottom pl d item ∧ item.type = ItemType.coin
          then 1 else 0) := by
  simp [coinsHit, List.countP_cons]

/-- The accumulated `scoreDelta` is 120 per collected coin. -/
theorem stepItems_score_eq (height carTop carBottom : ℚ) (pl : ℤ) (d : ℚ)
    (items : List Item) :
    (stepItems height carTop carBottom pl d items).2.1 =
      120 * (coinsHit height carTop carBottom pl d items : ℤ) := by
  induction items with
  | nil => simp [stepItems, coinsHit]
  | cons item rest ih =>
    simp only [stepItems]
    by_cases hoff : item.y + d > height + ITEM_HEIGHT
    · have hp : ¬ (itemHits height carTop carBottom pl d item ∧
          item.type = ItemType.coin) := fun hc => hc.1.1 hoff
      rw [if_pos hoff, coinsHit_cons, if_neg hp]
      simp [ih]
    · rw [if_neg hoff]
      by_cases hhit : item.lane = pl ∧ item.y + d + ITEM_HEIGHT > carTop ∧
          item.y + d < carBottom
      · rw [if_pos hhit]
        cases htype : item.type with
        | obstacle =>
          have hp : ¬ (itemHits height carTop carBottom pl d item ∧
              item.type = ItemType.coin) := by
            rintro ⟨-, hc⟩
            rw [htype] at hc
            simp at hc
          rw [coinsHit_cons, if_neg hp]
          simp [htype, ih]
        | coin =>
          have hp : itemHits height carTop carBottom pl d item ∧
              item.type = ItemType.coin := ⟨⟨hoff, hhit.1, hhit.2⟩, htype⟩
          rw [coinsHit_cons, if_pos hp]
          simp [htype, ih]
          ring
      · rw [if_neg hhit]
        have hp : ¬ (itemHits height carTop carBottom pl d item ∧
            item.type = ItemType.coin) := by
          rintro ⟨hc, -⟩
          exact hhit ⟨hc.2.1, hc.2.2⟩
        rw [coinsHit_cons, if_neg hp]
        simp [ih]

/-- The surviving items are exactly the non-resolved on-screen items, advanced
by the scroll distance. -/
theorem stepItems_mem_iff (height carTop carBottom : ℚ) (pl : ℤ) (d : ℚ)
    (items : List Item) (j : Item) :
    j ∈ (stepItems height carTop carBottom pl d items).2.2 ↔
      ∃ i ∈ items, ¬ offscreenAfter height d i ∧
        ¬ itemHits height carTop carBottom pl d i ∧ j = { i with y := i.y + d } := by
  induction items with
  | nil => simp [stepItems]
  | cons item rest ih =>
    simp only [stepItems]
    split_ifs with hoff hhit
    · rw [ih]
      constructor
      · rintro ⟨i, hi, hh⟩
        exact ⟨i, List.mem_cons_of_mem _ hi, hh⟩
      · rintro ⟨i, hi, hh⟩
        rcases List.mem_cons.mp hi with rfl | hi
        · exact absurd hoff hh.1
        · exact ⟨i, hi, hh⟩
    · have hmatch : (match item.type with
          | ItemType.obstacle =>
            (true, (stepItems height carTop carBottom pl d rest).2.1,
              (stepItems height carTop carBottom pl d rest).2.2)
          | ItemType.coin =>
            ((stepItems height carTop carBottom pl d rest).1,
              (stepItems height carTop carBottom pl d rest).2.1 + 120,
              (stepItems height carTop carBottom pl d rest).2.2)).2.2 =
          (stepItems height carTop carBottom pl d rest).2.2 := by
        cases item.type <;> rfl
      rw [hmatch, ih]
      constructor
      · rintro ⟨i, hi, hh⟩
        exact ⟨i, List.mem_cons_of_mem _ hi, hh⟩
      · rintro ⟨i, hi, hh⟩
        rcases List.mem_cons.mp hi with rfl | hi
        · exact absurd ⟨hoff, hhit.1, hhit.2⟩ hh.2.1
        · exact ⟨i, hi, hh⟩
    · simp only [List.mem_cons]
      rw [ih]
      constructor
      · rintro (rfl | ⟨i, hi, hh⟩)
        · refine ⟨item, Or.inl rfl, hoff, ?_, rfl⟩
          rintro ⟨-, hl, hov⟩
          exact hhit ⟨hl, hov.1, hov.2⟩
        · exact ⟨i, Or.inr hi, hh⟩
      · rintro ⟨i, hi, hh⟩
        rcases hi with rfl | hi
        · exact Or.inl hh.2.2
        · exact Or.inr ⟨i, hi, hh⟩

/-- The per-step coin score is non-negative. -/
theorem stepItems_score_nonneg (height carTop carBottom : ℚ) (pl : ℤ) (d : ℚ)
    (items : List Item) :
    0 ≤ (stepItems height carTop carBottom pl d items).2.1 := by
  rw [stepItems_score_eq]
  positivity

/-! ### Helper lemmas about one simulation step -/

theorem endGame_score (s : GameState) : (endGame s).score = s.score := rfl

theorem endGame_speed (s : GameState) : (endGame s).speed = s.speed := rfl

theorem endGame_items (s : GameState) : (endGame s).items = s.items := rfl

theorem endGame_lastTime (s : GameState) : (endGame s).lastTime = s.lastTime := rfl

theorem endGame_lastSpawn (s : GameState) : (endGame s).lastSpawn = s.lastSpawn := rfl

theorem endGame_nextId (s : GameState) : (endGame s).nextId = s.nextId := rfl

theorem endGame_highScore (s : GameState) :
    (endGame s).highScore = max s.highScore s.score := rfl

theorem tick_not_running (height : ℚ) (lane : ℤ) (isCoin : Bool) (timeMs : ℚ)
    (s : GameState) (h : s.gameState ≠ GamePhase.running) :
    tick height lane isCoin timeMs s = s := by
  rw [tick, if_pos h]

theorem tick_running (height : ℚ) (lane : ℤ) (isCoin : Bool) (timeMs : ℚ)
    (s : GameState) (h : s.gameState = GamePhase.running) :
    tick height lane isCoin timeMs s =
      if (advanceStep height timeMs s).2
        then endGame (trySpawnItem lane isCoin timeMs (advanceStep height timeMs s).1)
        else trySpawnItem lane isCoin timeMs (advanceStep height timeMs s).1 := by
  rw [tick, if_neg (by simp [h])]

theorem tick_score_running (height : ℚ) (lane : ℤ) (isCoin : Bool) (timeMs : ℚ)
    (s : GameState) (h : s.gameState = GamePhase.running) :
    (tick height lane isCoin timeMs s).score =
      s.score + (stepItems height (carTopOf height) (carBottomOf height)
        s.laneIndex (tickDistance timeMs s) s.items).2.1 + ⌊tickDelta timeMs s * 30⌋ := by
  rw [tick_running height lane isCoin timeMs s h]
  split_ifs
  · rw [endGame_score, trySpawnItem_score]
    rfl
  · rw [trySpawnItem_score]
    rfl

theorem tick_speed_running (height : ℚ) (lane : ℤ) (isCoin : Bool) (timeMs : ℚ)
    (s : GameState) (h : s.gameState = GamePhase.running) :
    (tick height lane isCoin timeMs s).speed = tickSpeed timeMs s := by
  rw [tick_running height lane isCoin timeMs s h]
  split_ifs
  · rw [endGame_speed, trySpawnItem_speed]
    rfl
  · rw [trySpawnItem_speed]
    rfl

theorem tick_lastTime_running (height : ℚ) (lane : ℤ) (isCoin : Bool) (timeMs : ℚ)
    (s : GameState) (h : s.gameState = GamePhase.running) :
    (tick height lane isCoin timeMs s).lastTime = timeMs := by
  rw [tick_running height lane isCoin timeMs s h]
  split_ifs
  · rw [endGame_lastTime, trySpawnItem_lastTime]
    rfl
  · rw [trySpawnItem_lastTime]
    rfl

theorem tickDelta_nonneg (timeMs : ℚ) (s : GameState) (h : s.lastTime ≤ timeMs) :
    0 ≤ tickDelta timeMs s := by
  rw [tickDelta]
  split_ifs with h0
  · simp
  · have h1 : 0 ≤ timeMs - s.lastTime := by linarith
    have h2 : (0 : ℚ) ≤ 1000 := by norm_num
    exact div_nonneg h1 h2

/-- A single step never decreases score or speed when the incoming timestamp is
at least the stored frame baseline. -/
theorem tick_score_speed_mono (height : ℚ) (lane : ℤ) (isCoin : Bool) (timeMs : ℚ)
    (s : GameState) (h : s.lastTime ≤ timeMs) :
    s.score ≤ (tick height lane isCoin timeMs s).score ∧
      s.speed ≤ (tick height lane isCoin timeMs s).speed := by
  by_cases hrun : s.gameState = GamePhase.running
  · have hd : 0 ≤ tickDelta timeMs s := tickDelta_nonneg timeMs s h
    constructor
    · rw [tick_score_running height lane isCoin timeMs s hrun]
      have hfloor : (0 : ℤ) ≤ ⌊tickDelta timeMs s * 30⌋ := by
        apply Int.le_floor.mpr
        push_cast
        exact mul_nonneg hd (by norm_num)
      have hsd := stepItems_score_nonneg height (carTopOf height) (carBottomOf height)
        s.laneIndex (tickDistance timeMs s) s.items
      linarith
    · rw [tick_speed_running height lane isCoin timeMs s hrun, tickSpeed]
      have : 0 ≤ SPEED_RAMP * tickDelta timeMs s :=
        mul_nonneg (by norm_num [SPEED_RAMP]) hd
      linarith
  · rw [tick_not_running height lane isCoin timeMs s hrun]
    exact ⟨le_refl _, le_refl _⟩

/-- Dropping the middle element of a non-decreasing chain of rationals. -/
theorem chain_le_drop {a b : ℚ} {l : List ℚ}
    (h : List.Chain' (· ≤ ·) (a :: b :: l)) : List.Chain' (· ≤ ·) (a :: l) := by
  rcases l with - | ⟨c, l⟩
  · simp
  · have hab : a ≤ b := (List.chain'_cons.mp h).1
    have h2 := (List.chain'_cons.mp h).2
    have hbc : b ≤ c := (List.chain'_cons.mp h2).1
    have h3 := (List.chain'_cons.mp h2).2
    exact List.chain'_cons.mpr ⟨le_trans hab hbc, h3⟩

/-! ### Helper lemmas about the minimum y in a lane -/

theorem option_any_iff {o : Option ℚ} {f : ℚ → Bool} :
    o.any f = true ↔ ∃ y, o = some y ∧ f y = true := by
  cases o <;> simp [Option.any]

theorem minLaneY_le (items : List Item) (lane : ℤ) (m : ℚ)
    (hm : minLaneY items lane = some m) :
    ∀ i ∈ items, i.lane = lane → m ≤ i.y := by
  intro i hi hl
  have hmem : i.y ∈ (items.filter (fun item => decide (item.lane = lane))).map Item.y :=
    List.mem_map_of_mem _ (List.mem_filter.mpr ⟨hi, by simp [hl]⟩)
  rw [minLaneY] at hm
  exact (List.le_min?_iff (fun a b c => le_min_iff) hm).mp (le_refl m) i.y hmem

theorem minLaneY_none (items : List Item) (lane : ℤ)
    (hm : minLaneY items lane = none) :
    ∀ i ∈ items, i.lane ≠ lane := by
  intro i hi hl
  rw [minLaneY, List.min?_eq_none_iff] at hm
  have hmem : i.y ∈ (items.filter (fun item => decide (item.lane = lane))).map Item.y :=
    List.mem_map_of_mem _ (List.mem_filter.mpr ⟨hi, by simp [hl]⟩)
  rw [hm] at hmem
  simp at hmem

/-! ### Claim theorems -/

/-- C6: invoking start/restart, from any phase, produces the zeroed run state
(score 0, speed `BASE_SPEED`, elapsed 0, empty item set, center lane 1,
Running, spawn/frame baselines reset), and invoking it twice in a row without
an intervening step equals invoking it once. -/
theorem c6_start_reset (s : GameState) :
    (startGame s).score = 0 ∧ (startGame s).speed = BASE_SPEED ∧
      (startGame s).elapsed = 0 ∧ (startGame s).items = [] ∧
      (startGame s).laneIndex = 1 ∧ (startGame s).gameState = GamePhase.running ∧
      (startGame s).lastSpawn = 0 ∧ (startGame s).lastTime = 0 ∧
      startGame (startGame s) = startGame s :=
  ⟨rfl, rfl, rfl, rfl, rfl, rfl, rfl, rfl, rfl⟩

/-- C2 counterexample: in the Ready phase, a moveLeft command does change the
stored lane index (the source does not gate `updateLane` on the phase), so the
claim that the lane is left unchanged outside Running is false. -/
theorem c2_counterexample :
    readyCenter.gameState = GamePhase.ready ∧
      (moveLeft readyCenter).laneIndex ≠ readyCenter.laneIndex := by
  constructor
  · rfl
  · decide

/-- C2 amended: lane-change commands are applied (clamped) in every phase, not
only while Running; they never change the phase, and since start/restart
resets the lane to the center, a lane change made in Ready or GameOver has no
effect on the run that follows. -/
theorem c2_moves_apply_in_any_phase (s : GameState) :
    (moveLeft s).gameState = s.gameState ∧
      (moveRight s).gameState = s.gameState ∧
      (moveLeft s).laneIndex = clamp (s.laneIndex - 1) 0 (LANES - 1) ∧
      (moveRight s).laneIndex = clamp (s.laneIndex + 1) 0 (LANES - 1) ∧
      startGame (moveLeft s) = startGame s ∧
      startGame (moveRight s) = startGame s :=
  ⟨rfl, rfl, rfl, rfl, rfl, rfl⟩

/-- C8 counterexample: from the reachable center lane 1, moveRight produces
lane `LANES - 1 = 2`, which lies outside the half-open range `[0, LANES-1)`
named by the claim. -/
theorem c8_counterexample :
    (moveRight runningCenter).laneIndex = LANES - 1 ∧
      ¬ (moveRight runningCenter).laneIndex < LANES - 1 := by
  decide

/-- C8 amended: moveLeft/moveRight change the lane by ±1 clamped into the
closed range `[0, LANES-1]` (the valid lanes are `0 … LANES-1`); a move past
either edge is a no-op, so the lane index never leaves that range. -/
theorem c8_clamped_moves (s : GameState) (h0 : 0 ≤ s.laneIndex)
    (h1 : s.laneIndex ≤ LANES - 1) :
    0 ≤ (moveLeft s).laneIndex ∧ (moveLeft s).laneIndex ≤ LANES - 1 ∧
      0 ≤ (moveRight s).laneIndex ∧ (moveRight s).laneIndex ≤ LANES - 1 ∧
      (s.laneIndex = 0 → (moveLeft s).laneIndex = s.laneIndex) ∧
      (s.laneIndex = LANES - 1 → (moveRight s).laneIndex = s.laneIndex) ∧
      (0 < s.laneIndex → (moveLeft s).laneIndex = s.laneIndex - 1) ∧
      (s.laneIndex < LANES - 1 → (moveRight s).laneIndex = s.laneIndex + 1) := by
  simp only [moveLeft, moveRight, clamp, LANES] at h0 h1 ⊢
  omega

theorem c8_clamped_moves_witness :
    (0 ≤ runningCenter.laneIndex ∧ runningCenter.laneIndex ≤ LANES - 1) ∧
      (0 ≤ (moveLeft runningCenter).laneIndex ∧
        (moveLeft runningCenter).laneIndex ≤ LANES - 1 ∧
        0 ≤ (moveRight runningCenter).laneIndex ∧
        (moveRight runningCenter).laneIndex ≤ LANES - 1 ∧
        (runningCenter.laneIndex = 0 →
          (moveLeft runningCenter).laneIndex = runningCenter.laneIndex) ∧
        (runningCenter.laneIndex = LANES - 1 →
          (moveRight runningCenter).laneIndex = runningCenter.laneIndex) ∧
        (0 < runningCenter.laneIndex →
          (moveLeft runningCenter).laneIndex = runningCenter.laneIndex - 1) ∧
        (runningCenter.laneIndex < LANES - 1 →
          (moveRight runningCenter).laneIndex = runningCenter.laneIndex + 1)) :=
  ⟨⟨by decide, by decide⟩, c8_clamped_moves runningCenter (by decide) (by decide)⟩

set_option maxRecDepth 40000 in
/-- C1 counterexample: a step that raises the collision flag still invokes the
spawn scheduler before the GameOver transition: here the step ends in GameOver
while a fresh item (id 5) is spawned and `lastSpawn` moves from 0 to the
step's timestamp. -/
theorem c1_counterexample :
    collideSpawnState.gameState = GamePhase.running ∧
      collideSpawnState.lastSpawn = 0 ∧
      (tick 800 0 false 1100 collideSpawnState).gameState = GamePhase.gameover ∧
      (tick 800 0 false 1100 collideSpawnState).lastSpawn = 1100 ∧
      (tick 800 0 false 1100 collideSpawnState).items =
        [{ id := 5, type := ItemType.obstacle, lane := 0, y := -ITEM_HEIGHT }] := by
  with_unfolding_all decide

/-- C1 amended: the Spawn Scheduler is invoked on every running step, also in
steps whose collision flag is raised; such a step performs the spawn attempt
and then transitions to GameOver, so its item set, `lastSpawn` and `nextId`
are exactly those produced by the spawn attempt. -/
theorem c1_spawn_runs_on_collision (height : ℚ) (lane : ℤ) (isCoin : Bool)
    (timeMs : ℚ) (s : GameState)
    (hrun : s.gameState = GamePhase.running)
    (hhit : (advanceStep height timeMs s).2 = true) :
    (tick height lane isCoin timeMs s).gameState = GamePhase.gameover ∧
      (tick height lane isCoin timeMs s).lastSpawn =
        (trySpawnItem lane isCoin timeMs (advanceStep height timeMs s).1).lastSpawn ∧
      (tick height lane isCoin timeMs s).items =
        (trySpawnItem lane isCoin timeMs (advanceStep height timeMs s).1).items ∧
      (tick height lane isCoin timeMs s).nextId =
        (trySpawnItem lane isCoin timeMs (advanceStep height timeMs s).1).nextId := by
  rw [tick_running height lane isCoin timeMs s hrun, if_pos hhit]
  exact ⟨rfl, endGame_lastSpawn _, endGame_items _, endGame_nextId _⟩

set_option maxRecDepth 40000 in
theorem c1_spawn_runs_on_collision_witness :
    (collideSpawnState.gameState = GamePhase.running ∧
      (advanceStep 800 1100 collideSpawnState).2 = true) ∧
      ((tick 800 0 false 1100 collideSpawnState).gameState = GamePhase.gameover ∧
        (tick 800 0 false 1100 collideSpawnState).lastSpawn =
          (trySpawnItem 0 false 1100 (advanceStep 800 1100 collideSpawnState).1).lastSpawn ∧
        (tick 800 0 false 1100 collideSpawnState).items =
          (trySpawnItem 0 false 1100 (advanceStep 800 1100 collideSpawnState).1).items ∧
        (tick 800 0 false 1100 collideSpawnState).nextId =
          (trySpawnItem 0 false 1100 (advanceStep 800 1100 collideSpawnState).1).nextId) :=
  ⟨⟨rfl, by with_unfolding_all decide⟩,
    c1_spawn_runs_on_collision 800 0 false 1100 collideSpawnState rfl
      (by with_unfolding_all decide)⟩

set_option maxRecDepth 40000 in
/-- C9: collision is tested only at the post-advance position: in this running
step the scroll distance (182.5) exceeds `CAR_HEIGHT + ITEM_HEIGHT = 96`; the
obstacle in the player's lane starts entirely above the player's box, lands
entirely below it while staying on-screen, and is retained with no collision:
the game keeps running. -/
theorem c9_obstacle_tunnels :
    CAR_HEIGHT + ITEM_HEIGHT < tickDistance 1500 tunnelState ∧
      tunnelState.laneIndex = 1 ∧
      (520 : ℚ) + ITEM_HEIGHT ≤ carTopOf 800 ∧
      carBottomOf 800 ≤ 520 + tickDistance 1500 tunnelState ∧
      520 + tickDistance 1500 tunnelState ≤ 800 + ITEM_HEIGHT ∧
      (tick 800 0 false 1500 tunnelState).gameState = GamePhase.running ∧
      (tick 800 0 false 1500 tunnelState).items =
        [{ id := 1, type := ItemType.obstacle, lane := 1,
           y := 520 + tickDistance 1500 tunnelState }] := by
  with_unfolding_all decide

set_option maxRecDepth 40000 in
/-- C3 counterexample: the spawn-interval gate has passed and the closest item
in the chosen lane sits `94` units from the spawn point `y = -itemHeight`,
farther than `1.6 × itemHeight = 70.4`, yet the attempt is rejected (the code
compares the item's `y` itself, not its distance to the spawn point, against
`1.6 × itemHeight`). -/
theorem c3_counterexample :
    spawnInterval nearTopState.elapsed ≤ 1000 - nearTopState.lastSpawn ∧
      minLaneY nearTopState.items 0 = some 50 ∧
      ¬ ((50 : ℚ) - (-ITEM_HEIGHT) < ITEM_HEIGHT * 1.6) ∧
      trySpawnItem 0 false 1000 nearTopState = nearTopState := by
  with_unfolding_all decide

/-- C3 amended: once the interval gate has passed, the attempt is rejected (no
item created, `lastSpawn` unchanged) exactly when the closest item in the
chosen lane (smallest `y`) has `y < 1.6 × itemHeight` — i.e. lies nearer than
`2.6 × itemHeight` to the spawn point `y = -itemHeight`; consequently accepted
spawns leave a vertical gap of at least `2.6 × itemHeight` (in particular,
never smaller than `1.6 × itemHeight`). -/
theorem c3_spawn_gap (lane : ℤ) (isCoin : Bool) (timeMs : ℚ) (s : GameState)
    (hgate : spawnInterval s.elapsed ≤ timeMs - s.lastSpawn) :
    (((trySpawnItem lane isCoin timeMs s).lastSpawn = s.lastSpawn ∧
        (trySpawnItem lane isCoin timeMs s).items = s.items) ↔
      (∃ y, minLaneY s.items lane = some y ∧ y < ITEM_HEIGHT * 1.6)) ∧
      ((trySpawnItem lane isCoin timeMs s).items ≠ s.items →
        ∀ i ∈ s.items, i.lane = lane →
          ITEM_HEIGHT * 2.6 ≤ i.y - (-ITEM_HEIGHT)) := by
  have hgate' : ¬ (timeMs - s.lastSpawn < spawnInterval s.elapsed) := not_lt.mpr hgate
  constructor
  · rw [trySpawnItem, if_neg hgate']
    by_cases hany :
        (minLaneY s.items lane).any (fun y => decide (y < ITEM_HEIGHT * 1.6)) = true
    · rw [if_pos hany]
      constructor
      · intro _
        rcases option_any_iff.mp hany with ⟨y, hy, hf⟩
        exact ⟨y, hy, of_decide_eq_true hf⟩
      · intro _
        exact ⟨rfl, rfl⟩
    · rw [if_neg hany]
      constructor
      · rintro ⟨hls, -⟩
        exfalso
        have ht : timeMs = s.lastSpawn := hls
        have hpos := spawnInterval_pos s.elapsed
        linarith
      · rintro ⟨y, hy, hf⟩
        exact absurd (option_any_iff.mpr ⟨y, hy, decide_eq_true hf⟩) hany
  · intro hne i hi hl
    rw [trySpawnItem, if_neg hgate'] at hne
    by_cases hany :
        (minLaneY s.items lane).any (fun y => decide (y < ITEM_HEIGHT * 1.6)) = true
    · rw [if_pos hany] at hne
      exact absurd rfl hne
    · cases hmy : minLaneY s.items lane with
      | none => exact absurd hl (minLaneY_none s.items lane hmy i hi)
      | some m =>
        have hmle : m ≤ i.y := minLaneY_le s.items lane m hmy i hi hl
        have h16 : ¬ (m < ITEM_HEIGHT * 1.6) := by
          intro hlt
          exact hany (option_any_iff.mpr ⟨m, hmy, decide_eq_true hlt⟩)
        rw [not_lt, ITEM_HEIGHT] at h16
        rw [ITEM_HEIGHT]
        norm_num at h16 ⊢
        linarith

set_option maxRecDepth 40000 in
theorem c3_spawn_gap_witness :
    spawnInterval clearLaneState.elapsed ≤ 1000 - clearLaneState.lastSpawn ∧
      ((((trySpawnItem 0 false 1000 clearLaneState).lastSpawn =
            clearLaneState.lastSpawn ∧
          (trySpawnItem 0 false 1000 clearLaneState).items =
            clearLaneState.items) ↔
        (∃ y, minLaneY clearLaneState.items 0 = some y ∧
          y < ITEM_HEIGHT * 1.6)) ∧
        ((trySpawnItem 0 false 1000 clearLaneState).items ≠ clearLaneState.items →
          ∀ i ∈ clearLaneState.items, i.lane = 0 →
            ITEM_HEIGHT * 2.6 ≤ i.y - (-ITEM_HEIGHT))) :=
  ⟨by with_unfolding_all decide,
    c3_spawn_gap 0 false 1000 clearLaneState (by with_unfolding_all decide)⟩

/-- C10: in a running step whose `delta` is non-negative and below `1/30` of a
second, the survival bonus `⌊delta * 30⌋` is exactly 0, so the score changes
only through coin pickups (120 per collected coin). -/
theorem c10_small_delta_no_bonus (height : ℚ) (lane : ℤ) (isCoin : Bool)
    (timeMs : ℚ) (s : GameState)
    (hrun : s.gameState = GamePhase.running)
    (h0 : 0 ≤ tickDelta timeMs s) (h1 : tickDelta timeMs s < 1/30) :
    ⌊tickDelta timeMs s * 30⌋ = 0 ∧
      (tick height lane isCoin timeMs s).score =
        s.score + 120 * (coinsHit height (carTopOf height) (carBottomOf height)
          s.laneIndex (tickDistance timeMs s) s.items : ℤ) := by
  have hfl : ⌊tickDelta timeMs s * 30⌋ = 0 := by
    rw [Int.floor_eq_zero_iff, Set.mem_Ico]
    exact ⟨mul_nonneg h0 (by norm_num), by linarith⟩
  refine ⟨hfl, ?_⟩
  rw [tick_score_running height lane isCoin timeMs s hrun, hfl, stepItems_score_eq]
  ring

set_option maxRecDepth 40000 in
theorem c10_small_delta_no_bonus_witness :
    (smallDeltaState.gameState = GamePhase.running ∧
      0 ≤ tickDelta 1020 smallDeltaState ∧
      tickDelta 1020 smallDeltaState < 1/30) ∧
      (⌊tickDelta 1020 smallDeltaState * 30⌋ = 0 ∧
        (tick 800 0 false 1020 smallDeltaState).score =
          smallDeltaState.score +
            120 * (coinsHit 800 (carTopOf 800) (carBottomOf 800)
              smallDeltaState.laneIndex (tickDistance 1020 smallDeltaState)
              smallDeltaState.items : ℤ)) :=
  ⟨⟨rfl, by with_unfolding_all decide, by with_unfolding_all decide⟩,
    c10_small_delta_no_bonus 800 0 false 1020 smallDeltaState rfl
      (by with_unfolding_all decide) (by with_unfolding_all decide)⟩

/-- C7: across any sequence of simulation steps driven by non-decreasing
timestamps, score and speed never decrease. -/
theorem c7_score_speed_monotone (height : ℚ) (inputs : List (ℚ × ℤ × Bool))
    (s : GameState)
    (h : List.Chain' (· ≤ ·) (s.lastTime :: inputs.map Prod.fst)) :
    s.score ≤ (runTicks height inputs s).score ∧
      s.speed ≤ (runTicks height inputs s).speed := by
  induction inputs generalizing s with
  | nil => exact ⟨le_refl _, le_refl _⟩
  | cons input rest ih =>
    obtain ⟨t, l, c⟩ := input
    rw [runTicks]
    have hmap : ((t, l, c) :: rest).map Prod.fst = t :: rest.map Prod.fst := rfl
    rw [hmap] at h
    have hle : s.lastTime ≤ t := (List.chain'_cons.mp h).1
    have htail : List.Chain' (· ≤ ·) (t :: rest.map Prod.fst) :=
      (List.chain'_cons.mp h).2
    have hstep := tick_score_speed_mono height l c t s hle
    have hchain : List.Chain' (· ≤ ·)
        ((tick height l c t s).lastTime :: rest.map Prod.fst) := by
      by_cases hrun : s.gameState = GamePhase.running
      · rw [tick_lastTime_running height l c t s hrun]
        exact htail
      · rw [tick_not_running height l c t s hrun]
        exact chain_le_drop h
    have hrest := ih (tick height l c t s) hchain
    exact ⟨le_trans hstep.1 hrest.1, le_trans hstep.2 hrest.2⟩

set_option maxRecDepth 40000 in
theorem c7_score_speed_monotone_witness :
    List.Chain' (· ≤ ·) ((startGame readyCenter).lastTime ::
      ([((100 : ℚ), (0 : ℤ), false), ((200 : ℚ), (2 : ℤ), true)].map Prod.fst)) ∧
      ((startGame readyCenter).score ≤
        (runTicks 800 [((100 : ℚ), (0 : ℤ), false), ((200 : ℚ), (2 : ℤ), true)]
          (startGame readyCenter)).score ∧
        (startGame readyCenter).speed ≤
          (runTicks 800 [((100 : ℚ), (0 : ℤ), false), ((200 : ℚ), (2 : ℤ), true)]
            (startGame readyCenter)).speed) :=
  ⟨by simp [startGame, readyCenter, List.chain'_cons]; norm_num,
    c7_score_speed_monotone 800 [((100 : ℚ), (0 : ℤ), false), ((200 : ℚ), (2 : ℤ), true)]
      (startGame readyCenter) (by simp [startGame, readyCenter, List.chain'_cons]; norm_num)⟩

/-- C4: in a running step, an obstacle that after advancing shares the player's
lane and overlaps the player's box ends the run in that same step: the phase
becomes GameOver, no item with that obstacle's id survives the step, and the
high score becomes `max(highScore, score after the step)`. (The id hypotheses
say ids are unique and the next fresh id differs, as the spawner guarantees.) -/
theorem c4_obstacle_ends_run (height : ℚ) (lane : ℤ) (isCoin : Bool)
    (timeMs : ℚ) (s : GameState) (i : Item)
    (hrun : s.gameState = GamePhase.running)
    (hi : i ∈ s.items)
    (htype : i.type = ItemType.obstacle)
    (hlane : i.lane = s.laneIndex)
    (hover : overlapsCar (carTopOf height) (carBottomOf height)
      (tickDistance timeMs s) i)
    (huniq : ∀ j ∈ s.items, j.id = i.id → j = i)
    (hfresh : i.id ≠ s.nextId) :
    (tick height lane isCoin timeMs s).gameState = GamePhase.gameover ∧
      (∀ j ∈ (tick height lane isCoin timeMs s).items, j.id ≠ i.id) ∧
      (tick height lane isCoin timeMs s).highScore =
        max s.highScore (tick height lane isCoin timeMs s).score := by
  have hoff : ¬ offscreenAfter height (tickDistance timeMs s) i := by
    have h2 := hover.2
    simp only [carBottomOf, CAR_HEIGHT] at h2
    show ¬ (i.y + tickDistance timeMs s > height + ITEM_HEIGHT)
    rw [ITEM_HEIGHT]
    push_neg
    linarith
  have hhits : itemHits height (carTopOf height) (carBottomOf height)
      s.laneIndex (tickDistance timeMs s) i := ⟨hoff, hlane, hover⟩
  have hflag : (advanceStep height timeMs s).2 = true := by
    show (stepItems height (carTopOf height) (carBottomOf height)
      s.laneIndex (tickDistance timeMs s) s.items).1 = true
    exact (stepItems_fst_iff height (carTopOf height) (carBottomOf height)
      s.laneIndex (tickDistance timeMs s) s.items).mpr ⟨i, hi, hhits, htype⟩
  rw [tick_running height lane isCoin timeMs s hrun, if_pos hflag]
  refine ⟨rfl, ?_, ?_⟩
  · intro j hj
    rw [endGame_items] at hj
    rcases trySpawnItem_items_sub lane isCoin timeMs
        (advanceStep height timeMs s).1 j hj with hj' | hj'
    · have hj2 : j ∈ (stepItems height (carTopOf height) (carBottomOf height)
          s.laneIndex (tickDistance timeMs s) s.items).2.2 := hj'
      rcases (stepItems_mem_iff height (carTopOf height) (carBottomOf height)
          s.laneIndex (tickDistance timeMs s) s.items j).mp hj2 with
        ⟨k, hk, hkoff, hknohit, rfl⟩
      intro hid
      have hk2 : k = i := huniq k hk hid
      rw [hk2] at hknohit
      exact hknohit hhits
    · have hid : j.id = s.nextId := hj'
      intro hc
      rw [hc] at hid
      exact hfresh hid
  · rw [endGame_highScore, endGame_score]
    have h2 : (trySpawnItem lane isCoin timeMs
        (advanceStep height timeMs s).1).highScore = s.highScore := by
      rw [trySpawnItem_highScore]
      rfl
    rw [h2]


set_option maxRecDepth 40000 in
theorem c4_obstacle_ends_run_witness :
    (obstacleHitState.gameState = GamePhase.running ∧
      ({ id := 1, type := ItemType.obstacle, lane := 1, y := 600 } : Item) ∈
        obstacleHitState.items ∧
      overlapsCar (carTopOf 800) (carBottomOf 800)
        (tickDistance 1100 obstacleHitState)
        { id := 1, type := ItemType.obstacle, lane := 1, y := 600 } ∧
      (∀ j ∈ obstacleHitState.items, j.id = 1 →
        j = { id := 1, type := ItemType.obstacle, lane := 1, y := 600 }) ∧
      (1 : ℕ) ≠ obstacleHitState.nextId) ∧
      ((tick 800 0 false 1100 obstacleHitState).gameState = GamePhase.gameover ∧
        (∀ j ∈ (tick 800 0 false 1100 obstacleHitState).items, j.id ≠ 1) ∧
        (tick 800 0 false 1100 obstacleHitState).highScore =
          max obstacleHitState.highScore
            (tick 800 0 false 1100 obstacleHitState).score) :=
  ⟨⟨rfl, by with_unfolding_all decide, by with_unfolding_all decide,
      by with_unfolding_all decide, by decide⟩,
    c4_obstacle_ends_run 800 0 false 1100 obstacleHitState
      { id := 1, type := ItemType.obstacle, lane := 1, y := 600 }
      rfl (by with_unfolding_all decide) rfl rfl
      (by with_unfolding_all decide) (by with_unfolding_all decide) (by decide)⟩

/-- C5: in a running step, a coin that after advancing shares the player's lane
and overlaps the player's box is removed (no item with its id survives), each
such coin contributes exactly 120 to the step's score (besides the survival
bonus), and coins never raise the collision flag: if no obstacle is resolved
this step, the game keeps running. -/
theorem c5_coin_scores (height : ℚ) (lane : ℤ) (isCoin : Bool) (timeMs : ℚ)
    (s : GameState) (i : Item)
    (hrun : s.gameState = GamePhase.running)
    (hi : i ∈ s.items)
    (htype : i.type = ItemType.coin)
    (hlane : i.lane = s.laneIndex)
    (hover : overlapsCar (carTopOf height) (carBottomOf height)
      (tickDistance timeMs s) i)
    (huniq : ∀ j ∈ s.items, j.id = i.id → j = i)
    (hfresh : i.id ≠ s.nextId) :
    (∀ j ∈ (tick height lane isCoin timeMs s).items, j.id ≠ i.id) ∧
      (tick height lane isCoin timeMs s).score =
        s.score + 120 * (coinsHit height (carTopOf height) (carBottomOf height)
          s.laneIndex (tickDistance timeMs s) s.items : ℤ) +
          ⌊tickDelta timeMs s * 30⌋ ∧
      1 ≤ coinsHit height (carTopOf height) (carBottomOf height) s.laneIndex
        (tickDistance timeMs s) s.items ∧
      ((∀ j ∈ s.items, ¬ (itemHits height (carTopOf height) (carBottomOf height)
          s.laneIndex (tickDistance timeMs s) j ∧ j.type = ItemType.obstacle)) →
        (tick height lane isCoin timeMs s).gameState = GamePhase.running) := by
  have hoff : ¬ offscreenAfter height (tickDistance timeMs s) i := by
    have h2 := hover.2
    simp only [carBottomOf, CAR_HEIGHT] at h2
    show ¬ (i.y + tickDistance timeMs s > height + ITEM_HEIGHT)
    rw [ITEM_HEIGHT]
    push_neg
    linarith
  have hhits : itemHits height (carTopOf height) (carBottomOf height)
      s.laneIndex (tickDistance timeMs s) i := ⟨hoff, hlane, hover⟩
  refine ⟨?_, ?_, ?_, ?_⟩
  · rw [tick_running height lane isCoin timeMs s hrun]
    have hrem : ∀ j ∈ (trySpawnItem lane isCoin timeMs
        (advanceStep height timeMs s).1).items, j.id ≠ i.id := by
      intro j hj
      rcases trySpawnItem_items_sub lane isCoin timeMs
          (advanceStep height timeMs s).1 j hj with hj' | hj'
      · have hj2 : j ∈ (stepItems height (carTopOf height) (carBottomOf height)
            s.laneIndex (tickDistance timeMs s) s.items).2.2 := hj'
        rcases (stepItems_mem_iff height (carTopOf height) (carBottomOf height)
            s.laneIndex (tickDistance timeMs s) s.items j).mp hj2 with
          ⟨k, hk, hkoff, hknohit, rfl⟩
        intro hid
        have hk2 : k = i := huniq k hk hid
        rw [hk2] at hknohit
        exact hknohit hhits
      · have hid : j.id = s.nextId := hj'
        intro hc
        rw [hc] at hid
        exact hfresh hid
    split_ifs
    · intro j hj
      rw [endGame_items] at hj
      exact hrem j hj
    · exact hrem
  · rw [tick_score_running height lane isCoin timeMs s hrun, stepItems_score_eq]
  · rw [coinsHit]
    exact List.countP_pos_iff.mpr ⟨i, hi, decide_eq_true ⟨hhits, htype⟩⟩
  · intro hnoobs
    have hflag : ¬ ((advanceStep height timeMs s).2 = true) := by
      show ¬ ((stepItems height (carTopOf height) (carBottomOf height)
        s.laneIndex (tickDistance timeMs s) s.items).1 = true)
      rw [stepItems_fst_iff]
      rintro ⟨j, hj, hh, ht⟩
      exact hnoobs j hj ⟨hh, ht⟩
    rw [tick_running height lane isCoin timeMs s hrun, if_neg hflag,
      trySpawnItem_gameState]
    exact hrun

set_option maxRecDepth 40000 in
theorem c5_coin_scores_witness :
    (coinHitState.gameState = GamePhase.running ∧
      ({ id := 1, type := ItemType.coin, lane := 1, y := 600 } : Item) ∈
        coinHitState.items ∧
      overlapsCar (carTopOf 800) (carBottomOf 800)
        (tickDistance 1100 coinHitState)
        { id := 1, type := ItemType.coin, lane := 1, y := 600 } ∧
      (∀ j ∈ coinHitState.items, j.id = 1 →
        j = { id := 1, type := ItemType.coin, lane := 1, y := 600 }) ∧
      (1 : ℕ) ≠ coinHitState.nextId) ∧
      ((∀ j ∈ (tick 800 0 false 1100 coinHitState).items, j.id ≠ 1) ∧
        (tick 800 0 false 1100 coinHitState).score =
          coinHitState.score +
            120 * (coinsHit 800 (carTopOf 800) (carBottomOf 800)
              coinHitState.laneIndex (tickDistance 1100 coinHitState)
              coinHitState.items : ℤ) + ⌊tickDelta 1100 coinHitState * 30⌋ ∧
        1 ≤ coinsHit 800 (carTopOf 800) (carBottomOf 800) coinHitState.laneIndex
          (tickDistance 1100 coinHitState) coinHitState.items ∧
        ((∀ j ∈ coinHitState.items,
            ¬ (itemHits 800 (carTopOf 800) (carBottomOf 800)
              coinHitState.laneIndex (tickDistance 1100 coinHitState) j ∧
              j.type = ItemType.obstacle)) →
          (tick 800 0 false 1100 coinHitState).gameState = GamePhase.running)) :=
  ⟨⟨rfl, by with_unfolding_all decide, by with_unfolding_all decide,
      by with_unfolding_all decide, by decide⟩,
    c5_coin_scores 800 0 false 1100 coinHitState
      { id := 1, type := ItemType.coin, lane := 1, y := 600 }
      rfl (by with_unfolding_all decide) rfl rfl
      (by with_unfolding_all decide) (by with_unfolding_all decide) (by decide)⟩

end LaneDrift
